/-
Verification of the sat-py orbital-mechanics library against its design
specification.  The Python sources under src/astro are shallowly embedded
over the real numbers: numpy 3-vectors become `Vec3`, numpy float arithmetic
becomes real arithmetic, `np.arctan2` becomes `atan2` (the principal argument
of a complex number, which agrees with numpy's two-argument arctangent on
exact reals), and fallible Python code returns `Except PyError`.
-/
import Mathlib

noncomputable section

namespace SatPy

/-- A numpy 3-vector (shape (3,)) abstracted as a triple of reals. -/
structure Vec3 where
  x : ℝ
  y : ℝ
  z : ℝ

namespace Vec3

/-- `np.dot` of two 3-vectors. -/
def dot (u v : Vec3) : ℝ := u.x * v.x + u.y * v.y + u.z * v.z

/-- `np.cross` of two 3-vectors. -/
def cross (u v : Vec3) : Vec3 :=
  ⟨u.y * v.z - u.z * v.y, u.z * v.x - u.x * v.z, u.x * v.y - u.y * v.x⟩

/-- `np.linalg.norm` of a 3-vector. -/
def norm (u : Vec3) : ℝ := Real.sqrt (u.dot u)

/-- Componentwise sum (numpy `+` on equal-shape arrays). -/
def add (u v : Vec3) : Vec3 := ⟨u.x + v.x, u.y + v.y, u.z + v.z⟩

/-- Componentwise difference (numpy `-`). -/
def sub (u v : Vec3) : Vec3 := ⟨u.x - v.x, u.y - v.y, u.z - v.z⟩

/-- Scalar times vector (numpy broadcasting of `*`). -/
def smul (a : ℝ) (u : Vec3) : Vec3 := ⟨a * u.x, a * u.y, a * u.z⟩

/-- Vector divided by a scalar (numpy broadcasting of `/`). -/
def divs (u : Vec3) (a : ℝ) : Vec3 := ⟨u.x / a, u.y / a, u.z / a⟩

end Vec3

instance : Add Vec3 := ⟨Vec3.add⟩

instance : Sub Vec3 := ⟨Vec3.sub⟩

instance : SMul ℝ Vec3 := ⟨Vec3.smul⟩

instance : Inhabited Vec3 := ⟨⟨0, 0, 0⟩⟩

/-- `np.arctan2 y x`: the angle in `(-π, π]` of the point `(x, y)`, i.e. the
principal argument of the complex number `x + y i`; `atan2 0 0 = 0` exactly as
in numpy. -/
def atan2 (y x : ℝ) : ℝ := Complex.arg ⟨x, y⟩

/-- The wrap used by `util.state_2_elements`: `if angle < 0: angle += 2π`. -/
def wrap_2pi (a : ℝ) : ℝ := if a < 0 then a + 2 * Real.pi else a

/-- Modelled from the spec: the module `dynamics.dcms` (function
`euler_2_dcm`) is imported by src/astro/util.py and src/astro/conversions.py
but is not under src/.  Spec §4.1 specifies the elementary direction-cosine
matrix for a right-handed rotation about a principal axis; every call site
uses the transpose `euler_2_dcm(θ, 3).T`, which rotates a vector actively by
`θ` about the z-axis.  `euler3T θ v` is that transpose applied to `v`. -/
def euler3T (θ : ℝ) (v : Vec3) : Vec3 :=
  ⟨Real.cos θ * v.x - Real.sin θ * v.y,
   Real.sin θ * v.x + Real.cos θ * v.y,
   v.z⟩

/-- Modelled from the spec: as for `euler3T`, the transpose
`euler_2_dcm(θ, 1).T` of the elementary axis-1 direction-cosine matrix of
spec §4.1, applied to a vector (active rotation by `θ` about the x-axis). -/
def euler1T (θ : ℝ) (v : Vec3) : Vec3 :=
  ⟨v.x,
   Real.cos θ * v.y - Real.sin θ * v.z,
   Real.sin θ * v.y + Real.cos θ * v.z⟩

/-- src/astro/util.py, `elements_2_state` (lines 5-32): classical elements to
Cartesian state.  Note the velocity terms: the source divides
`√(μ·p)·sin ν` by `p` (no factor of the eccentricity) and takes
`true_anomaly_dt = √(μ·p)·cos ν`, unlike `classic_elements_2_state` in
src/astro/conversions.py. -/
def elements_2_state (sm_axis eccentricity raan argp inclination true_anomaly
    grav_param : ℝ) : Vec3 × Vec3 :=
  let parameter := sm_axis * (1 - eccentricity ^ 2)
  let pos_magnitude := parameter / (1 + eccentricity * Real.cos true_anomaly)
  let pos_magnitude_dt :=
    Real.sqrt (grav_param * parameter) * Real.sin true_anomaly / parameter
  let true_anomaly_dt := Real.sqrt (grav_param * parameter) * Real.cos true_anomaly
  let xform := fun v =>
    euler3T raan (euler1T inclination (euler3T argp (euler3T true_anomaly v)))
  (xform ⟨pos_magnitude, 0, 0⟩,
   xform ⟨pos_magnitude_dt, pos_magnitude * true_anomaly_dt, 0⟩)

/-- src/astro/conversions.py, `classic_elements_2_state` (lines 6-46): same
frame composition as `elements_2_state` but with the trajectory-equation
velocity terms `√(μ/p)·e·sin ν` and `√(μ·p)/r²`. -/
def classic_elements_2_state (sm_axis eccentricity raan argp inclination
    true_anomaly grav_param : ℝ) : Vec3 × Vec3 :=
  let sl_rectum := sm_axis * (1 - eccentricity ^ 2)
  let pos_magnitude := sl_rectum / (1 + eccentricity * Real.cos true_anomaly)
  let pos_magnitude_dt :=
    Real.sqrt (grav_param / sl_rectum) * eccentricity * Real.sin true_anomaly
  let true_anomaly_dt := Real.sqrt (grav_param * sl_rectum) / pos_magnitude ^ 2
  let xform := fun v =>
    euler3T raan (euler1T inclination (euler3T argp (euler3T true_anomaly v)))
  (xform ⟨pos_magnitude, 0, 0⟩,
   xform ⟨pos_magnitude_dt, pos_magnitude * true_anomaly_dt, 0⟩)

/-- Return record of `util.state_2_elements`.  The source returns the tuple
`(sm_axis, eccentricity, raan, inclination, argp, true_anomaly)`. -/
structure ClassicalFromState where
  sm_axis : ℝ
  eccentricity : ℝ
  raan : ℝ
  inclination : Vec3
  argp : ℝ
  true_anomaly : ℝ

/-- src/astro/util.py, `state_2_elements` (lines 35-78).  Shape remarks on the
source (the unit vectors are (3,1) column arrays there; the embedding reads
all vectors as 3-vectors, the reading under which the linear algebra is
well-formed): in the inclination line, `np.dot(node_vec, unit_vec_3)` is the
scalar `node ⬝ ẑ`, and `np.dot(spf_ang_momentum, ·)` of a vector with that
scalar is numpy scalar multiplication, so the first `arctan2` argument is the
3-vector `(node ⬝ ẑ) • h` and `arctan2` maps over its components; the
embedding records the three components, with the `if inclination < 0` wrap
(which in numpy would raise on a length-3 truth value) read componentwise. -/
def state_2_elements (position velocity : Vec3) (grav_param : ℝ) :
    ClassicalFromState :=
  let unit_vec_1 : Vec3 := ⟨1, 0, 0⟩
  let unit_vec_2 : Vec3 := ⟨0, 1, 0⟩
  let unit_vec_3 : Vec3 := ⟨0, 0, 1⟩
  let spf_ang_momentum := position.cross velocity
  let eccentricity_vec :=
    (velocity.cross spf_ang_momentum).divs grav_param - position.divs position.norm
  let node_vec := unit_vec_3.cross spf_ang_momentum
  let parameter := spf_ang_momentum.norm ^ 2 / grav_param
  let eccentricity := eccentricity_vec.norm
  let sm_axis := parameter / (1 - eccentricity ^ 2)
  let raan := atan2 (node_vec.dot unit_vec_2) (node_vec.dot unit_vec_1)
  let incl := fun hj =>
    atan2 (node_vec.dot unit_vec_3 * hj)
      (node_vec.norm * spf_ang_momentum.dot unit_vec_3)
  let argp :=
    atan2 (node_vec.norm * eccentricity_vec.dot (spf_ang_momentum.cross node_vec))
      ((spf_ang_momentum.cross node_vec).norm * eccentricity_vec.dot node_vec)
  let true_anomaly :=
    atan2 (position.dot (spf_ang_momentum.cross eccentricity_vec))
      (spf_ang_momentum.norm * position.dot eccentricity_vec)
  { sm_axis := sm_axis
    eccentricity := eccentricity
    raan := wrap_2pi raan
    inclination := ⟨wrap_2pi (incl spf_ang_momentum.x),
                    wrap_2pi (incl spf_ang_momentum.y),
                    wrap_2pi (incl spf_ang_momentum.z)⟩
    argp := wrap_2pi argp
    true_anomaly := wrap_2pi true_anomaly }

/-- The classical orbital-element tuple
`(sm_axis, eccentricity, raan, argp, inclination, true_anomaly)` used by
src/astro/conversions.py. -/
@[ext]
structure Classical where
  sm_axis : ℝ
  eccentricity : ℝ
  raan : ℝ
  argp : ℝ
  inclination : ℝ
  true_anomaly : ℝ

/-- The modified equinoctial element tuple
`(sl_rectum, e_component1, e_component2, n_component1, n_component2,
true_latitude)` of src/astro/conversions.py. -/
structure Equinoctial where
  sl_rectum : ℝ
  e_component1 : ℝ
  e_component2 : ℝ
  n_component1 : ℝ
  n_component2 : ℝ
  true_latitude : ℝ

/-- src/astro/conversions.py, `classical_2_equinoctial` (lines 132-150). -/
def classical_2_equinoctial (c : Classical) : Equinoctial :=
  { sl_rectum := c.sm_axis * (1 - c.eccentricity ^ 2)
    e_component1 := c.eccentricity * Real.cos (c.argp + c.raan)
    e_component2 := c.eccentricity * Real.sin (c.argp + c.raan)
    n_component1 := Real.tan (c.inclination / 2) * Real.cos c.raan
    n_component2 := Real.tan (c.inclination / 2) * Real.sin c.raan
    true_latitude := c.raan + c.argp + c.true_anomaly }

/-- src/astro/conversions.py, `equinoctial_2_classical` (lines 152-177).
The source returns the tuple in the order
`(sm_axis, eccentricity, raan, argp, inclination, true_anomaly)`. -/
def equinoctial_2_classical (q : Equinoctial) : Classical :=
  { sm_axis := q.sl_rectum / (1 - q.e_component1 ^ 2 - q.e_component2 ^ 2)
    eccentricity := Real.sqrt (q.e_component1 ^ 2 + q.e_component2 ^ 2)
    inclination :=
      atan2 (2 * Real.sqrt (q.n_component1 ^ 2 + q.n_component2 ^ 2))
        (1 - q.n_component1 ^ 2 - q.n_component2 ^ 2)
    argp :=
      atan2 (q.e_component2 * q.n_component1 - q.e_component1 * q.n_component2)
        (q.e_component1 * q.n_component1 + q.e_component2 * q.n_component2)
    raan := atan2 q.n_component2 q.n_component1
    true_anomaly := q.true_latitude - atan2 q.e_component2 q.e_component1 }

/-- src/astro/orbits.py, class `Orbit`: attributes in `__init__` order
`(position, velocity, time, grav_param)`. -/
structure Orbit where
  position : Vec3
  velocity : Vec3
  time : ℝ
  grav_param : ℝ

/-- `Orbit.__init__(position, velocity, time, grav_param=3.986004418e14)`
with all four arguments given positionally. -/
def Orbit.init (position velocity : Vec3) (time grav_param : ℝ) : Orbit :=
  { position := position, velocity := velocity, time := time,
    grav_param := grav_param }

/-- src/astro/orbits.py, `Orbit.from_state` (lines 18-25): the body is
`cls(position, velocity, grav_param)`, three positional arguments, so
`grav_param` is bound to the `time` parameter of `__init__` and the
`grav_param` attribute takes the `__init__` default `3.986004418e14`. -/
def Orbit.from_state (position velocity : Vec3) (grav_param : ℝ) : Orbit :=
  Orbit.init position velocity grav_param 3.986004418e14

/-- src/astro/orbits.py, `Orbit.from_orbital_elements` (lines 27-47): builds
the state with `util.elements_2_state` (keyword arguments, so the differing
parameter order is harmless) and then, like `from_state`, calls
`cls(position, velocity, grav_param)` with three positional arguments. -/
def Orbit.from_orbital_elements (sm_axis eccentricity raan inclination argp
    true_anomaly grav_param : ℝ) : Orbit :=
  let pv := elements_2_state sm_axis eccentricity raan argp inclination
    true_anomaly grav_param
  Orbit.init pv.1 pv.2 grav_param 3.986004418e14

/-- The accumulation loop of `UniversalVariable.stumpff_funcs`
(src/astro/propagation/universal_variable.py lines 127-131):
`for i in range(n): s += (-z)**i / (2i+3)!; c += (-z)**i / (2i+2)!`,
both sums starting from `0`. -/
def stumpffLoop (z : ℝ) : ℕ → ℝ × ℝ
  | 0 => (0, 0)
  | n + 1 =>
    ((stumpffLoop z n).1 + (-z) ^ n / (Nat.factorial (2 * n + 3) : ℝ),
     (stumpffLoop z n).2 + (-z) ^ n / (Nat.factorial (2 * n + 2) : ℝ))

/-- src/astro/propagation/universal_variable.py,
`UniversalVariable.stumpff_funcs` (lines 113-147), returning the pair
`(s_func, c_func)`.  `stumpff_tol` and `stumpff_series_length` are the
instance configuration; in Python `-stumpff_param ** 3` parses as
`-(z³)`. -/
def stumpff_funcs (stumpff_tol : ℝ) (stumpff_series_length : ℕ) (z : ℝ) :
    ℝ × ℝ :=
  if |z| < stumpff_tol then
    stumpffLoop z stumpff_series_length
  else if z > 0 then
    ((Real.sqrt z - Real.sin (Real.sqrt z)) / Real.sqrt (z ^ 3),
     (1 - Real.cos (Real.sqrt z)) / z)
  else
    ((Real.sinh (Real.sqrt (-z)) - Real.sqrt (-z)) / Real.sqrt (-(z ^ 3)),
     (1 - Real.cosh (Real.sqrt (-z))) / z)

/-- The closure `eq` built inside `UniversalVariable.kepler_equation`
(src/astro/propagation/universal_variable.py lines 168-178): the residual of
the universal Kepler equation at `x`, with `elapsed = self.orbit.time -
initial_time` and `inverse_sm_axis` the value stored on the instance. -/
def keplerEq (stumpff_tol : ℝ) (stumpff_series_length : ℕ)
    (grav_param inverse_sm_axis : ℝ) (initial_position initial_velocity : Vec3)
    (elapsed : ℝ) (x : ℝ) : ℝ :=
  let stumpff_param := inverse_sm_axis * x ^ 2
  let s_func := (stumpff_funcs stumpff_tol stumpff_series_length stumpff_param).1
  let c_func := (stumpff_funcs stumpff_tol stumpff_series_length stumpff_param).2
  x ^ 3 * s_func
    + initial_position.dot initial_velocity / Real.sqrt grav_param * x ^ 2 * c_func
    + initial_position.norm * x * (1 - stumpff_param * s_func)
    - Real.sqrt grav_param * elapsed

/-- The kinds of Python exception that the embedded code paths can signal.
`attributeError` is Python's built-in AttributeError (e.g. `None.time`),
`zeroDivisionError` is the built-in raised by `0.0 / 0.0`, `valueError` the
built-in raised by numpy on malformed array sizes, and `runtimeError` the
built-in that `scipy.optimize.newton` raises on non-convergence.
`lifecycleError` and `nonConvergenceError` are the error kinds named by the
spec (§7); no class of either name exists anywhere in the source. -/
inductive PyError where
  | attributeError
  | zeroDivisionError
  | valueError
  | runtimeError
  | lifecycleError
  | nonConvergenceError
deriving DecidableEq

/-- One Newton-Raphson update `x - f x / df x`. -/
def newtonStep (f df : ℝ → ℝ) (x : ℝ) : ℝ := x - f x / df x

/-- Modelled from the spec: both `kepler_equation` methods delegate
root-finding to `scipy.optimize.newton(eq, initial_guess, tol=...)`, which is
external to this repository.  Spec §4.4/§9 describe it as Newton-Raphson
iteration to a configurable tolerance with an iteration cap, and scipy
documents that the cap (default 50) being exceeded raises `RuntimeError`; the
stopping test compares successive iterates (`|x' - x| ≤ tol`), and the
derivative is a parameter of the generic solver (scipy substitutes a secant
estimate when, as here, no derivative is passed).  `fuel` counts the
remaining allowed iterations. -/
def newtonIterate (f df : ℝ → ℝ) (tol : ℝ) : ℕ → ℝ → Except PyError ℝ
  | 0, _ => Except.error PyError.runtimeError
  | n + 1, x =>
    let x' := newtonStep f df x
    if |x' - x| ≤ tol then Except.ok x' else newtonIterate f df tol n x'

/-- Modelled from the spec: `scipy.optimize.newton` entry point with scipy's
default iteration cap of 50; see `newtonIterate`. -/
def newton (f df : ℝ → ℝ) (x0 tol : ℝ) : Except PyError ℝ :=
  newtonIterate f df tol 50 x0

/-- The propagator state shared by `base.Propagator.__init__` and
`UniversalVariable.__init__` (src/astro/propagation/base.py lines 25-36 and
universal_variable.py lines 28-43).  `orbit`, `final_time` and `timesteps`
(the history-size count computed in `setup`) are `none` until `setup` runs,
mirroring the `None` pre-initialisation of `orbit`/`final_time` and of the
history arrays. -/
structure UVProp where
  fg_constraint : Bool
  solver_tol : ℝ
  stumpff_tol : ℝ
  stumpff_series_length : ℕ
  step_size : Option ℝ
  orbit : Option Orbit
  final_time : Option ℝ
  timesteps : Option ℤ

/-- `UniversalVariable.__init__(step_size, solver_tol, stumpff_tol,
stumpff_series_length, fg_constraint)` followed by
`base.Propagator.__init__`: solver settings stored, `orbit`, `final_time`
and the history arrays left as `None`. -/
def UniversalVariable.init (step_size : Option ℝ)
    (solver_tol stumpff_tol : ℝ) (stumpff_series_length : ℕ)
    (fg_constraint : Bool) : UVProp :=
  { fg_constraint := fg_constraint
    solver_tol := solver_tol
    stumpff_tol := stumpff_tol
    stumpff_series_length := stumpff_series_length
    step_size := step_size
    orbit := none
    final_time := none
    timesteps := none }

/-- src/astro/propagation/base.py, `Propagator.setup` (lines 48-72).  If
`step_size` is `None` it defaults to `(final_time - orbit.time) / 10000`;
then `timesteps = int(np.floor((final_time - orbit.time) / step_size))` and
the history arrays get `timesteps + 1` columns with the initial sample at
index 0.  A zero `step_size` makes the Python float division raise
`ZeroDivisionError`; a negative `timesteps` makes the `np.zeros` allocation
or the index-0 assignment raise, collapsed here to `valueError`. -/
def UVProp.setup (p : UVProp) (orbit : Orbit) (final_time : ℝ) :
    Except PyError UVProp :=
  let step_size :=
    match p.step_size with
    | none => (final_time - orbit.time) / 10000
    | some h => h
  if step_size = 0 then Except.error PyError.zeroDivisionError
  else
    let timesteps : ℤ := Int.floor ((final_time - orbit.time) / step_size)
    if timesteps < 0 then Except.error PyError.valueError
    else
      Except.ok { p with
        step_size := some step_size
        orbit := some orbit
        final_time := some final_time
        timesteps := some timesteps }

/-- One iteration of the propagation loop of `UniversalVariable.propagate`
(src/astro/propagation/universal_variable.py lines 71-111), acting on the
pair (current orbit, current universal variable).  `rootFinder` stands for
the `sp.optimize.newton(eq, initial_guess, tol=self.solver_tol)` call;
`initial_time`, `initial_position`, `initial_velocity` are the values saved
before the loop, and `inverse_sm_axis` the instance attribute set at
propagation start. -/
def uvStep (stumpff_tol : ℝ) (stumpff_series_length : ℕ)
    (fg_constraint : Bool) (rootFinder : (ℝ → ℝ) → ℝ → ℝ)
    (initial_time : ℝ) (initial_position initial_velocity : Vec3)
    (inverse_sm_axis step_size : ℝ) (st : Orbit × ℝ) : Orbit × ℝ :=
  let orbit := st.1
  let time' := orbit.time + step_size
  let universal_variable :=
    rootFinder
      (keplerEq stumpff_tol stumpff_series_length orbit.grav_param
        inverse_sm_axis initial_position initial_velocity (time' - initial_time))
      st.2
  let stumpff_param := inverse_sm_axis * universal_variable ^ 2
  let s_func := (stumpff_funcs stumpff_tol stumpff_series_length stumpff_param).1
  let c_func := (stumpff_funcs stumpff_tol stumpff_series_length stumpff_param).2
  let f_func :=
    1 - universal_variable ^ 2 / initial_position.norm * c_func
  let g_func :=
    time' - initial_time
      - universal_variable ^ 3 / Real.sqrt orbit.grav_param * s_func
  let position' := f_func • initial_position + g_func • initial_velocity
  let fdot_func :=
    Real.sqrt orbit.grav_param / (position'.norm * initial_position.norm)
      * universal_variable * (stumpff_param * s_func - 1)
  let gdot_func :=
    if fg_constraint then (g_func * fdot_func + 1) / f_func
    else 1 - universal_variable ^ 2 / position'.norm * c_func
  let velocity' := fdot_func • initial_position + gdot_func • initial_velocity
  ({ orbit with time := time', position := position', velocity := velocity' },
   universal_variable)

/-- The loop state of `UniversalVariable.propagate` after `k` iterations,
starting from the stored orbit and `universal_variable = 0` (line 61: "by
definition always starts at 0 when propagation begins"). -/
def uvState (stumpff_tol : ℝ) (stumpff_series_length : ℕ)
    (fg_constraint : Bool) (rootFinder : (ℝ → ℝ) → ℝ → ℝ)
    (orbit0 : Orbit) (inverse_sm_axis step_size : ℝ) : ℕ → Orbit × ℝ
  | 0 => (orbit0, 0)
  | k + 1 =>
    uvStep stumpff_tol stumpff_series_length fg_constraint rootFinder
      orbit0.time orbit0.position orbit0.velocity inverse_sm_axis step_size
      (uvState stumpff_tol stumpff_series_length fg_constraint rootFinder
        orbit0 inverse_sm_axis step_size k)

/-- The (time, position, velocity) sample triple of an orbit, as stored in
the three history arrays. -/
def Orbit.sample (o : Orbit) : ℝ × Vec3 × Vec3 := (o.time, o.position, o.velocity)

/-- The contents of the three history arrays after a run of `n` loop
iterations, as one list of per-index samples: index 0 holds the initial
sample written by `setup`, index `k ≥ 1` the state after the `k`-th loop
iteration (universal_variable.py lines 108-111). -/
def uvHistory (stumpff_tol : ℝ) (stumpff_series_length : ℕ)
    (fg_constraint : Bool) (rootFinder : (ℝ → ℝ) → ℝ → ℝ)
    (orbit0 : Orbit) (inverse_sm_axis step_size : ℝ) (n : ℕ) :
    List (ℝ × Vec3 × Vec3) :=
  (List.range (n + 1)).map fun k =>
    (uvState stumpff_tol stumpff_series_length fg_constraint rootFinder
      orbit0 inverse_sm_axis step_size k).1.sample

/-- The observable result of `UniversalVariable.propagate`: the mutated
`orbit` attribute and the filled history arrays. -/
structure RunResult where
  orbit : Orbit
  history : List (ℝ × Vec3 × Vec3)

/-- src/astro/propagation/universal_variable.py,
`UniversalVariable.propagate` (lines 45-111).  On an un-setup instance
`self.orbit` is `None`, so the very first statement
`initial_time = self.orbit.time` (line 58) raises `AttributeError`; likewise
the loop bound `self.time_history.shape[1]` (line 71) and `self.step_size`
need the values produced by `setup`.  Otherwise the inverse semi-major axis
is computed once, from the initial state (lines 65-68), and the loop runs
`timesteps` times (`range(1, timesteps + 1)`). -/
def UVProp.propagate (p : UVProp) (rootFinder : (ℝ → ℝ) → ℝ → ℝ) :
    Except PyError RunResult :=
  match p.orbit with
  | none => Except.error PyError.attributeError
  | some orbit0 =>
    match p.timesteps, p.step_size with
    | some ts, some h =>
      let inverse_sm_axis :=
        (2 * orbit0.grav_param / orbit0.position.norm
          - orbit0.velocity.norm ^ 2) / orbit0.grav_param
      let n := ts.toNat
      Except.ok
        { orbit := (uvState p.stumpff_tol p.stumpff_series_length
            p.fg_constraint rootFinder orbit0 inverse_sm_axis h n).1
          history := uvHistory p.stumpff_tol p.stumpff_series_length
            p.fg_constraint rootFinder orbit0 inverse_sm_axis h n }
    | _, _ => Except.error PyError.attributeError

/-- `setup` followed by `propagate`, the call sequence of
`Mission.simulate` (src/astro/missions.py lines 39-49). -/
def UVProp.run (p : UVProp) (rootFinder : (ℝ → ℝ) → ℝ → ℝ) (orbit : Orbit)
    (final_time : ℝ) : Except PyError RunResult :=
  match p.setup orbit final_time with
  | Except.error e => Except.error e
  | Except.ok q => q.propagate rootFinder

/-- The residual polynomial exactly as claim C2 words it:
`x³·s(z) + (r₀·v₀/√μ)·x²·c(z) + |r₀|·x·(1 − z·s(z)) − √μ·Δt` with
`z = x²·(1/a)`.  Stated from the claim, to be compared with the source's
`keplerEq`. -/
def claimedResidual (stumpff_tol : ℝ) (stumpff_series_length : ℕ)
    (grav_param inverse_sm_axis r0dotv0 r0norm Δt x : ℝ) : ℝ :=
  let z := x ^ 2 * inverse_sm_axis
  x ^ 3 * (stumpff_funcs stumpff_tol stumpff_series_length z).1
    + r0dotv0 / Real.sqrt grav_param * x ^ 2
      * (stumpff_funcs stumpff_tol stumpff_series_length z).2
    + r0norm * x * (1 - z * (stumpff_funcs stumpff_tol stumpff_series_length z).1)
    - Real.sqrt grav_param * Δt

/-- Concrete orbit used by the witnesses: `r₀ = (1,0,0)`, `v₀ = (0,1,0)`,
`t₀ = 0`, `μ = 1`. -/
def witOrbit : Orbit := Orbit.init ⟨1, 0, 0⟩ ⟨0, 1, 0⟩ 0 1

/-- The inverse semi-major axis `(2μ/|r₀| - |v₀|²)/μ` of `witOrbit`. -/
def witInvA : ℝ :=
  (2 * witOrbit.grav_param / witOrbit.position.norm
    - witOrbit.velocity.norm ^ 2) / witOrbit.grav_param

/-- A root finder standing in for the scipy call that always returns `0`. -/
def witRF0 : (ℝ → ℝ) → ℝ → ℝ := fun _ _ => 0

/-- A root finder standing in for the scipy call that returns its seed. -/
def witRFid : (ℝ → ℝ) → ℝ → ℝ := fun _ x => x

/-- A configured propagator (the state `setup` leaves behind for
`final_time = witOrbit.time`, `step_size = 1`). -/
def witProp : UVProp :=
  { fg_constraint := true, solver_tol := 1e-8, stumpff_tol := 1e-8,
    stumpff_series_length := 10, step_size := some 1,
    orbit := some witOrbit, final_time := some witOrbit.time,
    timesteps := some 0 }

/-- The run result of propagating `witProp`: unchanged orbit, one sample. -/
def witRes : RunResult := { orbit := witOrbit, history := [witOrbit.sample] }

/-! ### Helper lemmas -/

/-- The Stumpff accumulation loop computes the partial sums of the two
series. -/
lemma stumpffLoop_eq_sum (z : ℝ) (n : ℕ) :
    stumpffLoop z n =
      (∑ k ∈ Finset.range n, (-z) ^ k / (Nat.factorial (2 * k + 3) : ℝ),
       ∑ k ∈ Finset.range n, (-z) ^ k / (Nat.factorial (2 * k + 2) : ℝ)) := by
  induction n with
  | zero => simp [stumpffLoop]
  | succ n ih => simp [stumpffLoop, ih, Finset.sum_range_succ]

/-- The universal-Kepler residual vanishes at `x = 0` when no time has
elapsed. -/
lemma keplerEq_zero (stumpff_tol : ℝ) (N : ℕ) (grav_param inverse_sm_axis : ℝ)
    (r0 v0 : Vec3) : keplerEq stumpff_tol N grav_param inverse_sm_axis r0 v0 0 0 = 0 := by
  simp [keplerEq]

/-! ### Claim C9 -/

/-- Claim C9: `Orbit.from_state(position, velocity, μ)` and
`Orbit.from_orbital_elements(..., μ)` pass `μ` positionally into the
epoch-time slot of `Orbit.__init__`, so the resulting orbit has `time = μ`
and `grav_param` equal to the default `3.986004418e14` regardless of the `μ`
supplied. -/
theorem c9_constructors_put_mu_in_time_slot (position velocity : Vec3)
    (sm_axis eccentricity raan inclination argp true_anomaly μ : ℝ) :
    ((Orbit.from_state position velocity μ).time = μ
      ∧ (Orbit.from_state position velocity μ).grav_param = 3.986004418e14)
    ∧ ((Orbit.from_orbital_elements sm_axis eccentricity raan inclination
          argp true_anomaly μ).time = μ
      ∧ (Orbit.from_orbital_elements sm_axis eccentricity raan inclination
          argp true_anomaly μ).grav_param = 3.986004418e14) :=
  ⟨⟨rfl, rfl⟩, rfl, rfl⟩

/-! ### Claim C3 -/

/-- Claim C3: for tolerance `stumpff_tol > 0` and term count `N ≥ 1`, the
Stumpff evaluator returns the `N`-term partial sums
`s(z) = Σ_(k<N) (-z)^k/(2k+3)!`, `c(z) = Σ_(k<N) (-z)^k/(2k+2)!` when
`|z| < stumpff_tol`; the closed elliptic forms `(√z - sin √z)/√(z³)` and
`(1 - cos √z)/z` when `z ≥ stumpff_tol`; and the closed hyperbolic forms
`(sinh √(-z) - √(-z))/√((-z)³)` and `(1 - cosh √(-z))/z` when
`z ≤ -stumpff_tol`; so no branch taken at a `z` that can be `0` divides by
`z`. -/
theorem c3_stumpff_branches (stumpff_tol : ℝ) (N : ℕ) (z : ℝ)
    (htol : 0 < stumpff_tol) (hN : 1 ≤ N) :
    (|z| < stumpff_tol →
      stumpff_funcs stumpff_tol N z =
        (∑ k ∈ Finset.range N, (-z) ^ k / (Nat.factorial (2 * k + 3) : ℝ),
         ∑ k ∈ Finset.range N, (-z) ^ k / (Nat.factorial (2 * k + 2) : ℝ)))
    ∧ (stumpff_tol ≤ z →
      stumpff_funcs stumpff_tol N z =
        ((Real.sqrt z - Real.sin (Real.sqrt z)) / Real.sqrt (z ^ 3),
         (1 - Real.cos (Real.sqrt z)) / z))
    ∧ (z ≤ -stumpff_tol →
      stumpff_funcs stumpff_tol N z =
        ((Real.sinh (Real.sqrt (-z)) - Real.sqrt (-z)) / Real.sqrt ((-z) ^ 3),
         (1 - Real.cosh (Real.sqrt (-z))) / z)) := by
  refine ⟨fun h => ?_, fun h => ?_, fun h => ?_⟩
  · rw [stumpff_funcs, if_pos h, stumpffLoop_eq_sum]
  · have hz : 0 < z := lt_of_lt_of_le htol h
    have habs : ¬ |z| < stumpff_tol := not_lt.2 (le_trans h (le_abs_self z))
    rw [stumpff_funcs, if_neg habs, if_pos hz]
  · have hz : ¬ z > 0 := by linarith
    have habs : ¬ |z| < stumpff_tol := by
      rw [abs_of_nonpos (by linarith)]
      linarith
    rw [stumpff_funcs, if_neg habs, if_neg hz, show (-z) ^ 3 = -(z ^ 3) by ring]

/-- Witness for C3 at `stumpff_tol = 1`, `N = 1`, `z = 0`. -/
theorem c3_stumpff_branches_witness :
    (0 : ℝ) < 1 ∧ 1 ≤ 1 ∧
    ((|(0 : ℝ)| < 1 →
      stumpff_funcs 1 1 0 =
        (∑ k ∈ Finset.range 1, (-(0 : ℝ)) ^ k / (Nat.factorial (2 * k + 3) : ℝ),
         ∑ k ∈ Finset.range 1, (-(0 : ℝ)) ^ k / (Nat.factorial (2 * k + 2) : ℝ)))
    ∧ ((1 : ℝ) ≤ 0 →
      stumpff_funcs 1 1 0 =
        ((Real.sqrt 0 - Real.sin (Real.sqrt 0)) / Real.sqrt (0 ^ 3),
         (1 - Real.cos (Real.sqrt 0)) / 0))
    ∧ ((0 : ℝ) ≤ -1 →
      stumpff_funcs 1 1 0 =
        ((Real.sinh (Real.sqrt (-0)) - Real.sqrt (-0)) / Real.sqrt ((-0) ^ 3),
         (1 - Real.cosh (Real.sqrt (-0))) / 0))) :=
  ⟨by norm_num, le_refl 1, c3_stumpff_branches 1 1 0 (by norm_num) (le_refl 1)⟩

/-! ### Claim C4 -/

/-- Counterexample to claim C4: a freshly constructed `UniversalVariable`
propagator (the constructor defaults), on which `setup` has never been
called, fails `propagate()` with Python's built-in `AttributeError` (from
`self.orbit.time` with `self.orbit = None`), which is not a
`LifecycleError` — indeed no `LifecycleError` class exists in the source. -/
theorem c4_counterexample :
    (UniversalVariable.init none 1e-8 1e-8 10 true).propagate (fun _ x => x)
      = Except.error PyError.attributeError
    ∧ PyError.attributeError ≠ PyError.lifecycleError :=
  ⟨rfl, by decide⟩

/-- Claim C4 as amended: calling `propagate()` on any propagator instance on
which `setup` has not been called fails fast, but with the untyped
`AttributeError` arising from the `None` orbit attribute, not with an
explicit `LifecycleError`. -/
theorem c4_propagate_before_setup_raises_attribute_error
    (step_size : Option ℝ) (solver_tol stumpff_tol : ℝ)
    (stumpff_series_length : ℕ) (fg_constraint : Bool)
    (rootFinder : (ℝ → ℝ) → ℝ → ℝ) :
    (UniversalVariable.init step_size solver_tol stumpff_tol
        stumpff_series_length fg_constraint).propagate rootFinder
      = Except.error PyError.attributeError :=
  rfl

/-- A complex number written by components with zero imaginary part is the
real coercion. -/
lemma mk_ofReal (t : ℝ) : (⟨t, 0⟩ : ℂ) = (t : ℂ) := by
  apply Complex.ext <;> simp

/-- `np.arctan2(0, t) = 0` for `t ≥ 0`. -/
lemma atan2_zero_nonneg (t : ℝ) (h : 0 ≤ t) : atan2 0 t = 0 := by
  rw [atan2, mk_ofReal]
  exact Complex.arg_ofReal_of_nonneg h

/-- `np.arctan2(0, t) = π` for `t < 0`. -/
lemma atan2_zero_neg (t : ℝ) (h : t < 0) : atan2 0 t = Real.pi := by
  rw [atan2, mk_ofReal]
  exact Complex.arg_ofReal_of_neg h

/-- `np.arctan2` takes values in `(-π, π]`. -/
lemma atan2_mem_Ioc (y x : ℝ) : atan2 y x ∈ Set.Ioc (-Real.pi) Real.pi :=
  ⟨Complex.neg_pi_lt_arg _, Complex.arg_le_pi _⟩

/-- The `if angle < 0: angle += 2π` wrap sends `(-π, π]` into `[0, 2π)`. -/
lemma wrap_2pi_mem_Ico (x : ℝ) (hx : x ∈ Set.Ioc (-Real.pi) Real.pi) :
    wrap_2pi x ∈ Set.Ico 0 (2 * Real.pi) := by
  have hπ := Real.pi_pos
  rw [wrap_2pi]
  rcases lt_or_le x 0 with h | h
  · rw [if_pos h]
    constructor <;> [linarith [hx.1]; linarith]
  · rw [if_neg (not_lt.2 h)]
    constructor <;> [exact h; linarith [hx.2]]

/-- A wrapped `arctan2` value lies in `[0, 2π)`. -/
lemma wrap_atan2_mem (y x : ℝ) :
    wrap_2pi (atan2 y x) ∈ Set.Ico 0 (2 * Real.pi) :=
  wrap_2pi_mem_Ico _ (atan2_mem_Ioc y x)

/-! ### Claim C6 -/

/-- Counterexample to claim C6: `equinoctial_2_classical` applies no
`[0, 2π)` wrap at all; at the in-domain input
`(p, e1, e2, n1, n2, L) = (1, 1, 0, 1, 0, -1)` the returned true anomaly is
`L - arctan2(e2, e1) = -1`, which is not in `[0, 2π)`. -/
theorem c6_counterexample :
    (equinoctial_2_classical ⟨1, 1, 0, 1, 0, -1⟩).true_anomaly = -1
    ∧ ¬ (equinoctial_2_classical ⟨1, 1, 0, 1, 0, -1⟩).true_anomaly
        ∈ Set.Ico 0 (2 * Real.pi) := by
  have h : (equinoctial_2_classical ⟨1, 1, 0, 1, 0, -1⟩).true_anomaly = -1 := by
    show (-1 : ℝ) - atan2 0 1 = -1
    rw [atan2_zero_nonneg 1 (by norm_num)]
    ring
  refine ⟨h, ?_⟩
  rw [h]
  intro hmem
  have := hmem.1
  norm_num at this

/-- Claim C6 as amended: the four angles returned by
`util.state_2_elements` (with the inclination read componentwise, see
`state_2_elements`) are wrapped into `[0, 2π)`, but
`equinoctial_2_classical` returns its `raan` and `argp` as unwrapped
`arctan2` principal values in `(-π, π]`, its inclination in `[0, π]`, and
its true anomaly `L - arctan2(e2, e1)`, which is unbounded in general. -/
theorem c6_angle_ranges :
    (∀ (position velocity : Vec3) (μ : ℝ),
      (state_2_elements position velocity μ).raan ∈ Set.Ico 0 (2 * Real.pi)
      ∧ (state_2_elements position velocity μ).argp ∈ Set.Ico 0 (2 * Real.pi)
      ∧ (state_2_elements position velocity μ).true_anomaly
          ∈ Set.Ico 0 (2 * Real.pi)
      ∧ (state_2_elements position velocity μ).inclination.x
          ∈ Set.Ico 0 (2 * Real.pi)
      ∧ (state_2_elements position velocity μ).inclination.y
          ∈ Set.Ico 0 (2 * Real.pi)
      ∧ (state_2_elements position velocity μ).inclination.z
          ∈ Set.Ico 0 (2 * Real.pi))
    ∧ (∀ q : Equinoctial,
      (equinoctial_2_classical q).raan ∈ Set.Ioc (-Real.pi) Real.pi
      ∧ (equinoctial_2_classical q).argp ∈ Set.Ioc (-Real.pi) Real.pi
      ∧ (equinoctial_2_classical q).inclination ∈ Set.Icc 0 Real.pi) := by
  constructor
  · intro position velocity μ
    exact ⟨wrap_atan2_mem _ _, wrap_atan2_mem _ _, wrap_atan2_mem _ _,
      wrap_atan2_mem _ _, wrap_atan2_mem _ _, wrap_atan2_mem _ _⟩
  · intro q
    refine ⟨atan2_mem_Ioc _ _, atan2_mem_Ioc _ _, ?_, Complex.arg_le_pi _⟩
    exact Complex.arg_nonneg_iff.2 (by positivity)

/-! ### Claim C1 -/

/-- In `util.state_2_elements` the first `arctan2` argument of the
inclination computation is the angular momentum scaled by `node ⬝ ẑ`, and the
node vector `ẑ × h` is orthogonal to `ẑ`, so every recovered inclination
component is `arctan2(0, ·) ∈ {0, π}` for every input state. -/
lemma state_2_elements_inclination_degenerate (position velocity : Vec3)
    (μ : ℝ) :
    ((state_2_elements position velocity μ).inclination.x = 0
      ∨ (state_2_elements position velocity μ).inclination.x = Real.pi)
    ∧ ((state_2_elements position velocity μ).inclination.y = 0
      ∨ (state_2_elements position velocity μ).inclination.y = Real.pi)
    ∧ ((state_2_elements position velocity μ).inclination.z = 0
      ∨ (state_2_elements position velocity μ).inclination.z = Real.pi) := by
  have hπ := Real.pi_pos
  have hwrap : ∀ hj d : ℝ,
      wrap_2pi (atan2 (((⟨0, 0, 1⟩ : Vec3).cross
        (position.cross velocity)).dot ⟨0, 0, 1⟩ * hj) d) = 0
      ∨ wrap_2pi (atan2 (((⟨0, 0, 1⟩ : Vec3).cross
        (position.cross velocity)).dot ⟨0, 0, 1⟩ * hj) d) = Real.pi := by
    intro hj d
    have hzero : ((⟨0, 0, 1⟩ : Vec3).cross (position.cross velocity)).dot
        ⟨0, 0, 1⟩ = 0 := by
      simp [Vec3.cross, Vec3.dot]
    rw [hzero, zero_mul]
    rcases le_or_lt 0 d with h | h
    · left
      rw [atan2_zero_nonneg d h, wrap_2pi, if_neg (lt_irrefl 0)]
    · right
      rw [atan2_zero_neg d h, wrap_2pi, if_neg (not_lt.2 hπ.le)]
  exact ⟨hwrap _ _, hwrap _ _, hwrap _ _⟩

/-- Claim C1, evaluated at the failing input
`(a, e, Ω, ω, i, ν, μ) = (2, 1/2, 0, 0, π/3, 0, 1)` (which satisfies the
claim's side conditions `e ∉ {0?, 1}`, `i ∉ {0, π}`, `μ > 0`): the
round trip `state_2_elements ∘ elements_2_state` cannot recover the
inclination `π/3` within `1e-9` relative tolerance — every component of the
recovered inclination is `0` or `π`. -/
theorem c1_roundtrip_fails_to_recover_inclination :
    ¬ |(state_2_elements
          (elements_2_state 2 (1/2) 0 0 (Real.pi/3) 0 1).1
          (elements_2_state 2 (1/2) 0 0 (Real.pi/3) 0 1).2
          1).inclination.x - Real.pi/3| ≤ 1e-9 * |Real.pi/3|
    ∧ ¬ |(state_2_elements
          (elements_2_state 2 (1/2) 0 0 (Real.pi/3) 0 1).1
          (elements_2_state 2 (1/2) 0 0 (Real.pi/3) 0 1).2
          1).inclination.y - Real.pi/3| ≤ 1e-9 * |Real.pi/3|
    ∧ ¬ |(state_2_elements
          (elements_2_state 2 (1/2) 0 0 (Real.pi/3) 0 1).1
          (elements_2_state 2 (1/2) 0 0 (Real.pi/3) 0 1).2
          1).inclination.z - Real.pi/3| ≤ 1e-9 * |Real.pi/3| := by
  have hπ := Real.pi_pos
  obtain ⟨hx, hy, hz⟩ := state_2_elements_inclination_degenerate
    (elements_2_state 2 (1/2) 0 0 (Real.pi/3) 0 1).1
    (elements_2_state 2 (1/2) 0 0 (Real.pi/3) 0 1).2 1
  have key : ∀ v : ℝ, v = 0 ∨ v = Real.pi →
      ¬ |v - Real.pi/3| ≤ 1e-9 * |Real.pi/3| := by
    intro v hv
    have habs : |Real.pi/3| = Real.pi/3 := abs_of_pos (by linarith)
    rcases hv with h | h <;> subst h
    · rw [habs, abs_of_nonpos (by linarith : 0 - Real.pi/3 ≤ 0)]
      intro hle
      nlinarith
    · rw [habs, abs_of_nonneg (by linarith : 0 ≤ Real.pi - Real.pi/3)]
      intro hle
      nlinarith
  exact ⟨key _ hx, key _ hy, key _ hz⟩

/-! ### Claim C5 -/

/-- Quadrant-correct recovery: `arctan2(r sin θ, r cos θ) = θ` for `r > 0`
and `θ` in the principal range `(-π, π]`. -/
lemma atan2_mul_cos_sin (r θ : ℝ) (hr : 0 < r)
    (hθ : θ ∈ Set.Ioc (-Real.pi) Real.pi) :
    atan2 (r * Real.sin θ) (r * Real.cos θ) = θ := by
  rw [atan2]
  have h1 : (⟨r * Real.cos θ, r * Real.sin θ⟩ : ℂ)
      = (r : ℂ) * (Complex.cos θ + Complex.sin θ * Complex.I) := by
    rw [Complex.mk_eq_add_mul_I, ← Complex.ofReal_cos, ← Complex.ofReal_sin]
    push_cast
    ring
  rw [h1]
  exact Complex.arg_mul_cos_add_sin_mul_I hr hθ

/-- Counterexample to claim C5: at the circular input
`(a, e, Ω, ω, i, ν) = (1, 0, 0, 1, π/2, 0)` — in the claim's stated domain,
since `e = 0 ≠ 1` and `i = π/2 ≠ π` — the equinoctial round trip returns
`argp = arctan2(0, 0) = 0`, which misses the original `ω = 1` by far more
than the `1e-9` relative tolerance. -/
theorem c5_counterexample :
    (equinoctial_2_classical (classical_2_equinoctial
        ⟨1, 0, 0, 1, Real.pi/2, 0⟩)).argp = 0
    ∧ ¬ |(equinoctial_2_classical (classical_2_equinoctial
        ⟨1, 0, 0, 1, Real.pi/2, 0⟩)).argp - 1| ≤ 1e-9 * |(1 : ℝ)| := by
  have h : (equinoctial_2_classical (classical_2_equinoctial
      ⟨1, 0, 0, 1, Real.pi/2, 0⟩)).argp = 0 := by
    show atan2
      (0 * Real.sin (1 + 0) * (Real.tan (Real.pi/2/2) * Real.cos 0)
        - 0 * Real.cos (1 + 0) * (Real.tan (Real.pi/2/2) * Real.sin 0))
      (0 * Real.cos (1 + 0) * (Real.tan (Real.pi/2/2) * Real.cos 0)
        + 0 * Real.sin (1 + 0) * (Real.tan (Real.pi/2/2) * Real.sin 0)) = 0
    rw [show (0 : ℝ) * Real.sin (1 + 0) * (Real.tan (Real.pi/2/2) * Real.cos 0)
        - 0 * Real.cos (1 + 0) * (Real.tan (Real.pi/2/2) * Real.sin 0) = 0
      from by ring]
    rw [show (0 : ℝ) * Real.cos (1 + 0) * (Real.tan (Real.pi/2/2) * Real.cos 0)
        + 0 * Real.sin (1 + 0) * (Real.tan (Real.pi/2/2) * Real.sin 0) = 0
      from by ring]
    exact atan2_zero_nonneg 0 le_rfl
  refine ⟨h, ?_⟩
  rw [h]
  intro hle
  rw [abs_of_nonpos (by norm_num : (0 : ℝ) - 1 ≤ 0)] at hle
  norm_num at hle

/-- Claim C5 as amended: for classical elements with `0 < e`, `e ≠ 1`,
`0 < i < π`, and `raan`, `argp`, `argp + raan` each in the principal range
`(-π, π]`, the round trip `equinoctial_2_classical ∘ classical_2_equinoctial`
recovers all six elements exactly (hence in particular within any relative
tolerance).  The extra conditions are forced: at `e = 0` or `i = 0` the
`arctan2(0, 0) = 0` convention loses `argp` and `raan`
(see the counterexample), and outside the principal ranges `arctan2` returns
the wrapped representative. -/
theorem c5_equinoctial_roundtrip (c : Classical)
    (he : 0 < c.eccentricity) (he1 : c.eccentricity ≠ 1)
    (hi0 : 0 < c.inclination) (hiπ : c.inclination < Real.pi)
    (hraan : c.raan ∈ Set.Ioc (-Real.pi) Real.pi)
    (hargp : c.argp ∈ Set.Ioc (-Real.pi) Real.pi)
    (hsum : c.argp + c.raan ∈ Set.Ioc (-Real.pi) Real.pi) :
    equinoctial_2_classical (classical_2_equinoctial c) = c := by
  obtain ⟨a, e, Ω, ω, i, ν⟩ := c
  simp only at he he1 hi0 hiπ hraan hargp hsum
  set t := Real.tan (i / 2) with ht
  have hcos : 0 < Real.cos (i / 2) := by
    apply Real.cos_pos_of_mem_Ioo
    constructor <;> [linarith [Real.pi_pos]; linarith]
  have htpos : 0 < t :=
    Real.tan_pos_of_pos_of_lt_pi_div_two (by linarith) (by linarith)
  have hsumsq : (e * Real.cos (ω + Ω)) ^ 2 + (e * Real.sin (ω + Ω)) ^ 2
      = e ^ 2 := by
    have := Real.sin_sq_add_cos_sq (ω + Ω)
    nlinarith
  have he2 : (1 : ℝ) - e ^ 2 ≠ 0 := by
    intro hc
    have : (1 - e) * (1 + e) = 0 := by nlinarith
    rcases mul_eq_zero.1 this with h | h
    · exact he1 (by linarith)
    · nlinarith
  have hnsq : (t * Real.cos Ω) ^ 2 + (t * Real.sin Ω) ^ 2 = t ^ 2 := by
    have := Real.sin_sq_add_cos_sq Ω
    nlinarith
  refine Classical.ext ?_ ?_ ?_ ?_ ?_ ?_
  · -- sm_axis
    show a * (1 - e ^ 2) / (1 - (e * Real.cos (ω + Ω)) ^ 2
      - (e * Real.sin (ω + Ω)) ^ 2) = a
    rw [show (1 : ℝ) - (e * Real.cos (ω + Ω)) ^ 2 - (e * Real.sin (ω + Ω)) ^ 2
        = 1 - e ^ 2 from by rw [sub_sub, hsumsq]]
    exact mul_div_cancel_right₀ a he2
  · -- eccentricity
    show Real.sqrt ((e * Real.cos (ω + Ω)) ^ 2 + (e * Real.sin (ω + Ω)) ^ 2)
      = e
    rw [hsumsq]
    exact Real.sqrt_sq he.le
  · -- raan
    show atan2 (t * Real.sin Ω) (t * Real.cos Ω) = Ω
    exact atan2_mul_cos_sin t Ω htpos hraan
  · -- argp
    show atan2
      (e * Real.sin (ω + Ω) * (t * Real.cos Ω)
        - e * Real.cos (ω + Ω) * (t * Real.sin Ω))
      (e * Real.cos (ω + Ω) * (t * Real.cos Ω)
        + e * Real.sin (ω + Ω) * (t * Real.sin Ω)) = ω
    rw [show e * Real.sin (ω + Ω) * (t * Real.cos Ω)
          - e * Real.cos (ω + Ω) * (t * Real.sin Ω)
        = (e * t) * Real.sin ω from by
      rw [show ω = (ω + Ω) - Ω from by ring, Real.sin_sub]
      ring_nf]
    rw [show e * Real.cos (ω + Ω) * (t * Real.cos Ω)
          + e * Real.sin (ω + Ω) * (t * Real.sin Ω)
        = (e * t) * Real.cos ω from by
      rw [show ω = (ω + Ω) - Ω from by ring, Real.cos_sub]
      ring_nf]
    exact atan2_mul_cos_sin (e * t) ω (mul_pos he htpos) hargp
  · -- inclination
    show atan2
      (2 * Real.sqrt ((t * Real.cos Ω) ^ 2 + (t * Real.sin Ω) ^ 2))
      (1 - (t * Real.cos Ω) ^ 2 - (t * Real.sin Ω) ^ 2) = i
    rw [show (t * Real.cos Ω) ^ 2 + (t * Real.sin Ω) ^ 2 = t ^ 2 from hnsq,
      Real.sqrt_sq htpos.le]
    have hc2 : (0 : ℝ) < Real.cos (i / 2) ^ 2 := by positivity
    have hsin : Real.sin i = 2 * Real.sin (i / 2) * Real.cos (i / 2) := by
      have h2 := Real.sin_two_mul (i / 2)
      rwa [show 2 * (i / 2) = i from by ring] at h2
    have hcos2 : Real.cos i = Real.cos (i / 2) ^ 2 - Real.sin (i / 2) ^ 2 := by
      have h2 := Real.cos_two_mul' (i / 2)
      rwa [show 2 * (i / 2) = i from by ring] at h2
    rw [show 2 * t = (1 / Real.cos (i / 2) ^ 2) * Real.sin i from by
      rw [ht, Real.tan_eq_sin_div_cos, hsin]
      field_simp
      ring]
    rw [show (1 : ℝ) - (t * Real.cos Ω) ^ 2 - (t * Real.sin Ω) ^ 2
        = (1 / Real.cos (i / 2) ^ 2) * Real.cos i from by
      rw [sub_sub, hnsq, ht, Real.tan_eq_sin_div_cos, hcos2]
      field_simp]
    exact atan2_mul_cos_sin _ i (by positivity)
      ⟨by linarith [Real.pi_pos], hiπ.le⟩
  · -- true_anomaly
    show Ω + ω + ν - atan2 (e * Real.sin (ω + Ω)) (e * Real.cos (ω + Ω)) = ν
    rw [atan2_mul_cos_sin e (ω + Ω) he hsum]
    ring

/-- Witness for the amended C5 at
`(a, e, Ω, ω, i, ν) = (1, 1/2, 0, 0, π/2, 5)`. -/
theorem c5_equinoctial_roundtrip_witness :
    (0 : ℝ) < 1/2 ∧ (1/2 : ℝ) ≠ 1 ∧ (0 : ℝ) < Real.pi/2
    ∧ Real.pi/2 < Real.pi
    ∧ (0 : ℝ) ∈ Set.Ioc (-Real.pi) Real.pi
    ∧ equinoctial_2_classical (classical_2_equinoctial
        ⟨1, 1/2, 0, 0, Real.pi/2, 5⟩) = ⟨1, 1/2, 0, 0, Real.pi/2, 5⟩ := by
  have hπ := Real.pi_pos
  have hmem : (0 : ℝ) ∈ Set.Ioc (-Real.pi) Real.pi := ⟨by linarith, hπ.le⟩
  exact ⟨by norm_num, by norm_num, by linarith, by linarith, hmem,
    c5_equinoctial_roundtrip ⟨1, 1/2, 0, 0, Real.pi/2, 5⟩ (by norm_num)
      (by norm_num) (by linarith) (by linarith) hmem hmem (by simpa using hmem)⟩

/-! ### Claim C7 -/

/-- Every error the bounded Newton iteration can produce is scipy's
`RuntimeError`. -/
lemma newtonIterate_error_kind (f df : ℝ → ℝ) (tol : ℝ) (n : ℕ) :
    ∀ (x : ℝ) (e : PyError),
      newtonIterate f df tol n x = Except.error e → e = PyError.runtimeError := by
  induction n with
  | zero =>
    intro x e h
    rw [newtonIterate] at h
    injection h with h2
    exact h2.symm
  | succ n ih =>
    intro x e h
    rw [newtonIterate] at h
    split at h
    · exact absurd h (by simp)
    · exact ih _ e h

/-- If the iterate starts at a root of `f` but the tolerance is negative,
the stopping test never passes and the iteration runs out of fuel, producing
`RuntimeError`. -/
lemma newtonIterate_stuck (f df : ℝ → ℝ) (tol x : ℝ) (hf : f x = 0)
    (htol : tol < 0) (n : ℕ) :
    newtonIterate f df tol n x = Except.error PyError.runtimeError := by
  induction n with
  | zero => rfl
  | succ n ih =>
    have hstep : newtonStep f df x = x := by
      rw [newtonStep, hf, zero_div, sub_zero]
    rw [newtonIterate, hstep]
    rw [if_neg (by rw [sub_self, abs_zero]; linarith)]
    exact ih

/-- Counterexample to claim C7: a universal-variable Kepler solve (the
residual of `UniversalVariable.kepler_equation` at `μ = 1`, `1/a = 1`,
`r₀ = (1,0,0)`, `v₀ = (0,1,0)`, elapsed time `0`, initial guess `0`) with a
configured tolerance of `-1` never meets the tolerance: the solver exhausts
its iteration cap and signals scipy's `RuntimeError`, not a
`NonConvergenceError` (no class of that name exists in the source). -/
theorem c7_counterexample :
    newton (keplerEq 1e-8 10 1 1 ⟨1, 0, 0⟩ ⟨0, 1, 0⟩ 0) (fun _ => 1) 0 (-1)
      = Except.error PyError.runtimeError
    ∧ PyError.runtimeError ≠ PyError.nonConvergenceError :=
  ⟨newtonIterate_stuck _ _ _ _ (keplerEq_zero 1e-8 10 1 1 ⟨1, 0, 0⟩ ⟨0, 1, 0⟩)
      (by norm_num) 50,
   by decide⟩

/-- Claim C7 as amended: a Kepler solve that exceeds the iteration cap
without meeting the tolerance fails explicitly — it neither loops unboundedly
(the cap is scipy's default of 50, not a repository-configured maximum) nor
silently returns a value — but the error it signals is scipy's generic
`RuntimeError`; the repository defines no `NonConvergenceError`. -/
theorem c7_solver_failure_is_runtime_error (f df : ℝ → ℝ) (x0 tol : ℝ)
    (e : PyError) (h : newton f df x0 tol = Except.error e) :
    e = PyError.runtimeError :=
  newtonIterate_error_kind f df tol 50 x0 e h

/-- Witness for the amended C7 at the concrete non-converging solve of the
counterexample's input. -/
theorem c7_solver_failure_witness :
    newton (keplerEq 1e-8 10 1 1 ⟨1, 0, 0⟩ ⟨0, 1, 0⟩ 0) (fun _ => 1) 0 (-1)
      = Except.error PyError.runtimeError
    ∧ PyError.runtimeError = PyError.runtimeError := by
  have hrun : newton (keplerEq 1e-8 10 1 1 ⟨1, 0, 0⟩ ⟨0, 1, 0⟩ 0)
      (fun _ => 1) 0 (-1) = Except.error PyError.runtimeError :=
    newtonIterate_stuck _ _ _ _
      (keplerEq_zero 1e-8 10 1 1 ⟨1, 0, 0⟩ ⟨0, 1, 0⟩) (by norm_num) 50
  exact ⟨hrun,
    c7_solver_failure_is_runtime_error _ _ _ _ PyError.runtimeError hrun⟩

/-! ### Claim C8 -/

/-- Counterexample to claim C8: with `stepSize` omitted and
`finalTime = initialState.time`, the default rule makes
`step_size = (finalTime - time)/10000 = 0`, and `setup`'s
`(final_time - orbit.time) / step_size` divides by zero, so the run raises
instead of producing the length-1 history of the initial state that the
claim demands. -/
theorem c8_counterexample :
    (UniversalVariable.init none 1e-8 1e-8 10 true).run (fun _ x => x)
        (Orbit.init ⟨1, 0, 0⟩ ⟨0, 1, 0⟩ 0 1) 0
      = Except.error PyError.zeroDivisionError
    ∧ Except.error PyError.zeroDivisionError
        ≠ (Except.ok { orbit := Orbit.init ⟨1, 0, 0⟩ ⟨0, 1, 0⟩ 0 1,
                       history := [(0, ⟨1, 0, 0⟩, ⟨0, 1, 0⟩)] }
            : Except PyError RunResult) := by
  have hsetup : (UniversalVariable.init none 1e-8 1e-8 10 true).setup
      (Orbit.init ⟨1, 0, 0⟩ ⟨0, 1, 0⟩ 0 1) 0
      = Except.error PyError.zeroDivisionError := by
    rw [UVProp.setup]
    norm_num [UniversalVariable.init, Orbit.init]
  refine ⟨?_, by simp⟩
  rw [UVProp.run, hsetup]

/-- Claim C8 as amended: with an explicitly supplied nonzero `stepSize` and
`finalTime` equal to the initial orbit's time, `setup` followed by
`propagate` succeeds, leaves the orbit unchanged, and produces a history of
exactly length 1 holding the initial sample; but when `stepSize` is omitted,
the default step-size rule yields `stepSize = 0` and `setup` raises a
division-by-zero error (see the counterexample). -/
theorem c8_zero_step_identity (solver_tol stumpff_tol : ℝ)
    (stumpff_series_length : ℕ) (fg_constraint : Bool)
    (rootFinder : (ℝ → ℝ) → ℝ → ℝ) (orbit : Orbit) (h : ℝ) (hh : h ≠ 0) :
    (UniversalVariable.init (some h) solver_tol stumpff_tol
        stumpff_series_length fg_constraint).run rootFinder orbit orbit.time
      = Except.ok { orbit := orbit, history := [orbit.sample] } := by
  have hsetup : (UniversalVariable.init (some h) solver_tol stumpff_tol
      stumpff_series_length fg_constraint).setup orbit orbit.time
      = Except.ok { fg_constraint := fg_constraint, solver_tol := solver_tol,
                    stumpff_tol := stumpff_tol,
                    stumpff_series_length := stumpff_series_length,
                    step_size := some h, orbit := some orbit,
                    final_time := some orbit.time, timesteps := some 0 } := by
    rw [UVProp.setup]
    simp [UniversalVariable.init, hh]
  rw [UVProp.run, hsetup]
  simp [UVProp.propagate, uvHistory, uvState, List.range_succ]

/-- Witness for the amended C8 at `stepSize = 1` and a concrete initial
orbit. -/
theorem c8_zero_step_witness :
    (1 : ℝ) ≠ 0 ∧
    (UniversalVariable.init (some 1) 1e-8 1e-8 10 true).run (fun _ x => x)
        (Orbit.init ⟨1, 0, 0⟩ ⟨0, 1, 0⟩ 0 1)
        (Orbit.init ⟨1, 0, 0⟩ ⟨0, 1, 0⟩ 0 1).time
      = Except.ok { orbit := Orbit.init ⟨1, 0, 0⟩ ⟨0, 1, 0⟩ 0 1,
                    history := [(0, ⟨1, 0, 0⟩, ⟨0, 1, 0⟩)] } :=
  ⟨by norm_num,
   c8_zero_step_identity 1e-8 1e-8 10 true (fun _ x => x)
     (Orbit.init ⟨1, 0, 0⟩ ⟨0, 1, 0⟩ 0 1) 1 (by norm_num)⟩

/-! ### Claim C2 -/

/-- The claim's residual formula coincides with the residual closure the
source builds in `UniversalVariable.kepler_equation`. -/
lemma claimedResidual_eq_keplerEq (stumpff_tol : ℝ)
    (stumpff_series_length : ℕ) (grav_param inverse_sm_axis : ℝ)
    (r0 v0 : Vec3) (Δt x : ℝ) :
    claimedResidual stumpff_tol stumpff_series_length grav_param
      inverse_sm_axis (r0.dot v0) r0.norm Δt x
    = keplerEq stumpff_tol stumpff_series_length grav_param inverse_sm_axis
      r0 v0 Δt x := by
  simp only [claimedResidual, keplerEq]
  rw [mul_comm (x ^ 2) inverse_sm_axis]

/-- Along the propagation loop the orbit's time advances by `step_size` per
step and its gravitational parameter never changes. -/
lemma uvState_time_grav (stumpff_tol : ℝ) (stumpff_series_length : ℕ)
    (fg_constraint : Bool) (rootFinder : (ℝ → ℝ) → ℝ → ℝ) (orbit0 : Orbit)
    (inverse_sm_axis step_size : ℝ) (k : ℕ) :
    (uvState stumpff_tol stumpff_series_length fg_constraint rootFinder
        orbit0 inverse_sm_axis step_size k).1.time
      = orbit0.time + k * step_size
    ∧ (uvState stumpff_tol stumpff_series_length fg_constraint rootFinder
        orbit0 inverse_sm_axis step_size k).1.grav_param
      = orbit0.grav_param := by
  induction k with
  | zero => simp [uvState]
  | succ k ih =>
    have hrec : uvState stumpff_tol stumpff_series_length fg_constraint
        rootFinder orbit0 inverse_sm_axis step_size (k + 1)
        = uvStep stumpff_tol stumpff_series_length fg_constraint rootFinder
            orbit0.time orbit0.position orbit0.velocity inverse_sm_axis
            step_size
            (uvState stumpff_tol stumpff_series_length fg_constraint
              rootFinder orbit0 inverse_sm_axis step_size k) := rfl
    constructor
    · rw [hrec]
      show (uvState stumpff_tol stumpff_series_length fg_constraint rootFinder
          orbit0 inverse_sm_axis step_size k).1.time + step_size = _
      rw [ih.1]
      push_cast
      ring
    · rw [hrec]
      show (uvState stumpff_tol stumpff_series_length fg_constraint rootFinder
          orbit0 inverse_sm_axis step_size k).1.grav_param = _
      exact ih.2

/-- Claim C2: at every step of `UniversalVariable.propagate` the value the
Kepler solver returns is the root finder applied, with the previous step's
value as seed, to exactly the claimed residual
`x³·s(z) + (r₀·v₀/√μ)·x²·c(z) + |r₀|·x·(1 − z·s(z)) − √μ·Δt`, with
`z = x²·(1/a)`, `Δt = (k+1)·step_size` the elapsed time since propagation
start, and `1/a = (2μ/|r₀| − |v₀|²)/μ` computed once from the start state;
consequently, whenever the (external, scipy) root finder meets the
configured solver tolerance on the residuals handed to it during the run,
every returned `x` is a root of the claimed residual to within that
tolerance. -/
theorem c2_kepler_solver_residual (stumpff_tol tol : ℝ)
    (stumpff_series_length : ℕ) (fg_constraint : Bool)
    (rootFinder : (ℝ → ℝ) → ℝ → ℝ) (orbit0 : Orbit) (step_size : ℝ) (k : ℕ)
    (hroot : ∀ (j : ℕ) (x0 : ℝ),
      |keplerEq stumpff_tol stumpff_series_length orbit0.grav_param
          ((2 * orbit0.grav_param / orbit0.position.norm
            - orbit0.velocity.norm ^ 2) / orbit0.grav_param)
          orbit0.position orbit0.velocity ((j + 1 : ℕ) * step_size)
          (rootFinder
            (keplerEq stumpff_tol stumpff_series_length orbit0.grav_param
              ((2 * orbit0.grav_param / orbit0.position.norm
                - orbit0.velocity.norm ^ 2) / orbit0.grav_param)
              orbit0.position orbit0.velocity ((j + 1 : ℕ) * step_size))
            x0)|
        ≤ tol) :
    (uvState stumpff_tol stumpff_series_length fg_constraint rootFinder
        orbit0
        ((2 * orbit0.grav_param / orbit0.position.norm
          - orbit0.velocity.norm ^ 2) / orbit0.grav_param)
        step_size (k + 1)).2
      = rootFinder
          (claimedResidual stumpff_tol stumpff_series_length
            orbit0.grav_param
            ((2 * orbit0.grav_param / orbit0.position.norm
              - orbit0.velocity.norm ^ 2) / orbit0.grav_param)
            (orbit0.position.dot orbit0.velocity) orbit0.position.norm
            ((k + 1 : ℕ) * step_size))
          (uvState stumpff_tol stumpff_series_length fg_constraint rootFinder
            orbit0
            ((2 * orbit0.grav_param / orbit0.position.norm
              - orbit0.velocity.norm ^ 2) / orbit0.grav_param)
            step_size k).2
    ∧ |claimedResidual stumpff_tol stumpff_series_length orbit0.grav_param
          ((2 * orbit0.grav_param / orbit0.position.norm
            - orbit0.velocity.norm ^ 2) / orbit0.grav_param)
          (orbit0.position.dot orbit0.velocity) orbit0.position.norm
          ((k + 1 : ℕ) * step_size)
          ((uvState stumpff_tol stumpff_series_length fg_constraint rootFinder
            orbit0
            ((2 * orbit0.grav_param / orbit0.position.norm
              - orbit0.velocity.norm ^ 2) / orbit0.grav_param)
            step_size (k + 1)).2)|
        ≤ tol := by
  set invA := (2 * orbit0.grav_param / orbit0.position.norm
    - orbit0.velocity.norm ^ 2) / orbit0.grav_param with hinvA
  have hfun : ∀ Δt : ℝ,
      claimedResidual stumpff_tol stumpff_series_length orbit0.grav_param
        invA (orbit0.position.dot orbit0.velocity) orbit0.position.norm Δt
      = keplerEq stumpff_tol stumpff_series_length orbit0.grav_param invA
          orbit0.position orbit0.velocity Δt :=
    fun Δt => funext fun x =>
      claimedResidual_eq_keplerEq stumpff_tol stumpff_series_length
        orbit0.grav_param invA orbit0.position orbit0.velocity Δt x
  have htg := uvState_time_grav stumpff_tol stumpff_series_length
    fg_constraint rootFinder orbit0 invA step_size k
  have hstate : (uvState stumpff_tol stumpff_series_length fg_constraint
      rootFinder orbit0 invA step_size (k + 1)).2
      = rootFinder
          (keplerEq stumpff_tol stumpff_series_length
            (uvState stumpff_tol stumpff_series_length fg_constraint
              rootFinder orbit0 invA step_size k).1.grav_param
            invA orbit0.position orbit0.velocity
            ((uvState stumpff_tol stumpff_series_length fg_constraint
              rootFinder orbit0 invA step_size k).1.time + step_size
              - orbit0.time))
          (uvState stumpff_tol stumpff_series_length fg_constraint rootFinder
            orbit0 invA step_size k).2 := rfl
  have helapsed : (uvState stumpff_tol stumpff_series_length fg_constraint
      rootFinder orbit0 invA step_size k).1.time + step_size - orbit0.time
      = ((k + 1 : ℕ) : ℝ) * step_size := by
    rw [htg.1]
    push_cast
    ring
  rw [hstate, htg.2, helapsed]
  refine ⟨by rw [hfun], ?_⟩
  rw [hfun]
  exact hroot k _

/-- Witness for C2 with `witOrbit`, step size `0`, the constant-zero root
finder, tolerances `1`, one Stumpff term, at step `k = 0`. -/
theorem c2_kepler_solver_residual_witness :
    (∀ (j : ℕ) (x0 : ℝ),
      |keplerEq 1 1 witOrbit.grav_param witInvA witOrbit.position
          witOrbit.velocity ((j + 1 : ℕ) * 0)
          (witRF0
            (keplerEq 1 1 witOrbit.grav_param witInvA witOrbit.position
              witOrbit.velocity ((j + 1 : ℕ) * 0))
            x0)|
        ≤ 1)
    ∧ ((uvState 1 1 true witRF0 witOrbit witInvA 0 (0 + 1)).2
        = witRF0
            (claimedResidual 1 1 witOrbit.grav_param witInvA
              (witOrbit.position.dot witOrbit.velocity) witOrbit.position.norm
              ((0 + 1 : ℕ) * 0))
            (uvState 1 1 true witRF0 witOrbit witInvA 0 0).2
      ∧ |claimedResidual 1 1 witOrbit.grav_param witInvA
            (witOrbit.position.dot witOrbit.velocity) witOrbit.position.norm
            ((0 + 1 : ℕ) * 0)
            ((uvState 1 1 true witRF0 witOrbit witInvA 0 (0 + 1)).2)|
          ≤ 1) := by
  have hroot : ∀ (j : ℕ) (x0 : ℝ),
      |keplerEq 1 1 witOrbit.grav_param witInvA witOrbit.position
          witOrbit.velocity ((j + 1 : ℕ) * 0)
          (witRF0
            (keplerEq 1 1 witOrbit.grav_param witInvA witOrbit.position
              witOrbit.velocity ((j + 1 : ℕ) * 0))
            x0)|
        ≤ 1 := by
    intro j x0
    show |keplerEq 1 1 witOrbit.grav_param witInvA witOrbit.position
        witOrbit.velocity ((j + 1 : ℕ) * 0) 0| ≤ 1
    rw [mul_zero, keplerEq_zero]
    norm_num
  exact ⟨hroot,
    c2_kepler_solver_residual 1 1 1 true witRF0 witOrbit 0 0 hroot⟩

/-! ### Claim C10 -/

/-- The last history sample is the final loop state. -/
lemma uvHistory_getLast (stumpff_tol : ℝ) (stumpff_series_length : ℕ)
    (fg_constraint : Bool) (rootFinder : (ℝ → ℝ) → ℝ → ℝ) (orbit0 : Orbit)
    (inverse_sm_axis step_size : ℝ) (n : ℕ) :
    (uvHistory stumpff_tol stumpff_series_length fg_constraint rootFinder
        orbit0 inverse_sm_axis step_size n).getLast?
      = some (uvState stumpff_tol stumpff_series_length fg_constraint
          rootFinder orbit0 inverse_sm_axis step_size n).1.sample := by
  rw [uvHistory]
  simp [List.range_succ]

/-- The history's index-0 sample is the initial state written by `setup`. -/
lemma uvHistory_head (stumpff_tol : ℝ) (stumpff_series_length : ℕ)
    (fg_constraint : Bool) (rootFinder : (ℝ → ℝ) → ℝ → ℝ) (orbit0 : Orbit)
    (inverse_sm_axis step_size : ℝ) (n : ℕ) :
    (uvHistory stumpff_tol stumpff_series_length fg_constraint rootFinder
        orbit0 inverse_sm_axis step_size n).head?
      = some orbit0.sample := by
  rw [uvHistory]
  rw [show n + 1 = Nat.succ n from rfl, List.range_succ_eq_map]
  rfl

/-- Claim C10: `propagate()` mutates the orbit passed to `setup` in place:
whenever it returns successfully, the orbit attribute's
(time, position, velocity) equal the last sample of the history arrays —
the final propagated state — while index 0 of the history retains the
initial sample of the orbit that was supplied to `setup`. -/
theorem c10_propagate_mutates_orbit_to_final_sample (p : UVProp)
    (rootFinder : (ℝ → ℝ) → ℝ → ℝ) (res : RunResult)
    (h : p.propagate rootFinder = Except.ok res) :
    res.history.getLast? = some res.orbit.sample
    ∧ ∃ orbit0 : Orbit, p.orbit = some orbit0
        ∧ res.history.head? = some orbit0.sample := by
  rcases horb : p.orbit with _ | orbit0
  · rw [UVProp.propagate, horb] at h
    cases h
  · rcases hts : p.timesteps with _ | ts
    · rw [UVProp.propagate, horb, hts] at h
      rcases hss : p.step_size with _ | hstep <;> simp [hss] at h
    · rcases hss : p.step_size with _ | hstep
      · rw [UVProp.propagate, horb, hts, hss] at h
        cases h
      · rw [UVProp.propagate, horb, hts, hss] at h
        injection h with h2
        subst h2
        refine ⟨uvHistory_getLast _ _ _ _ _ _ _ _,
          orbit0, rfl, uvHistory_head _ _ _ _ _ _ _ _⟩

/-- Witness for C10: the zero-iteration propagation of `witProp`. -/
theorem c10_propagate_mutates_witness :
    witProp.propagate witRFid = Except.ok witRes
    ∧ (witRes.history.getLast? = some witRes.orbit.sample
      ∧ ∃ orbit0 : Orbit, witProp.orbit = some orbit0
          ∧ witRes.history.head? = some orbit0.sample) :=
  ⟨rfl, c10_propagate_mutates_orbit_to_final_sample witProp witRFid witRes rfl⟩

end SatPy
